import Mathlib

/-!
# Verification of the spatial simulation core of a top-down space-combat game

Shallow embedding of the relevant parts of `main.py` and `renderer.py`:
the tile rotation transform, the laser-beam damage resolver, vehicle
kinematics, the angular tracking step, shield regeneration, the
turret/turret-station pairing scan, and the camera/viewport mapper.
Machine floats are idealised as real numbers.
-/

namespace BirdsInSpace

/-- Team constants from `main.py` (`TEAM_ALLIANCE = 0`, `TEAM_ENEMY = 1`). -/
def TEAM_ALLIANCE : ℕ := 0

/-- Enemy team tag. -/
def TEAM_ENEMY : ℕ := 1

/-! ## Pose and transform engine (`Tile`, `AllianceShip`) -/

/-- Pose state of a parent ship as used by `Tile.transform`:
position `(x, y)` plus the cached `stheta`/`ctheta` fields. -/
structure Parent where
  x : ℝ
  y : ℝ
  stheta : ℝ
  ctheta : ℝ

/-- The cache step of `AllianceShip.update`: `stheta = sin(theta)`,
`ctheta = cos(theta)`. -/
noncomputable def shipPose (px py theta : ℝ) : Parent :=
  ⟨px, py, Real.sin theta, Real.cos theta⟩

/-- The rotation transform `Tile.transform` of `main.py`: a tile with
parent-relative offset `(tileX, tileY)` maps a local point `(x, y)` to
world space by rotating about the parent's center. -/
def Tile.transform (p : Parent) (tileX tileY x y : ℝ) : ℝ × ℝ :=
  (p.x + (tileX + x) * p.ctheta - (tileY + y) * p.stheta,
   p.y + (tileY + y) * p.ctheta + (tileX + x) * p.stheta)

/-- The accumulated tile position set in `Tile.__init__`:
`ax = parent.x + x`, `ay = parent.y + y`. -/
def Tile.initAccum (px py tileX tileY : ℝ) : ℝ × ℝ :=
  (px + tileX, py + tileY)

/-! ## Vehicle kinematics -/

/-- The velocity lines of `AllianceShip.update`:
`vx = -cos(theta) * speed`, `vy = -sin(theta) * speed`. -/
noncomputable def AllianceShip.vel (theta speed : ℝ) : ℝ × ℝ :=
  (-Real.cos theta * speed, -Real.sin theta * speed)

/-- The position step of `AllianceShip.update`: `x += vx * delta`,
`y += vy * delta`. -/
noncomputable def AllianceShip.move (x y theta speed delta : ℝ) : ℝ × ℝ :=
  (x + (AllianceShip.vel theta speed).1 * delta,
   y + (AllianceShip.vel theta speed).2 * delta)

/-- The movement lines of `SmallEnemyShip.update`:
`x += cos(theta) * speed * delta`, `y += sin(theta) * speed * delta`. -/
noncomputable def SmallEnemyShip.move (x y theta speed delta : ℝ) : ℝ × ℝ :=
  (x + Real.cos theta * speed * delta,
   y + Real.sin theta * speed * delta)

/-! ## Combat and damage resolver (`LaserBeam`, `objsWithHP`) -/

/-- Hit geometry of a damageable entry of `objsWithHP`: ships and the
octagon use a circular test, shields use an elliptical test. -/
inductive HitShape where
  | circle (size : ℝ)
  | ellipse (w h : ℝ)

/-- A damageable entity as seen by the collision loop of
`LaserBeam.update`: position, team tag, health and hit geometry. -/
structure Damageable where
  x : ℝ
  y : ℝ
  team : ℕ
  hp : ℝ
  shape : HitShape

/-- The `isInside` tests of `main.py`: `math.dist(center, point) < size`
for circles, and the ellipse formula
`((x-cx)/w)^2 + ((y-cy)/h)^2 <= 1` for `Shields.isInside`. -/
noncomputable def isInside (e : Damageable) (px py : ℝ) : Prop :=
  match e.shape with
  | .circle size => Real.sqrt ((e.x - px) ^ 2 + (e.y - py) ^ 2) < size
  | .ellipse w h => (px - e.x) ^ 2 / w ^ 2 + (py - e.y) ^ 2 / h ^ 2 ≤ 1

open Classical in
/-- The collision loop of `LaserBeam.update`: walk `objsWithHP` in order,
and on the first entry of a different team containing the beam head,
subtract 1 HP and stop. Returns the updated list and whether a hit
occurred (which removes the beam and spawns an explosion). -/
noncomputable def laserHitScan (team : ℕ) (px py : ℝ) :
    List Damageable → List Damageable × Bool
  | [] => ([], false)
  | e :: rest =>
    if e.team ≠ team ∧ isInside e px py then
      ({ e with hp := e.hp - 1 } :: rest, true)
    else
      let r := laserHitScan team px py rest
      (e :: r.1, r.2)

/-- State of a `LaserBeam`: head `(x, y)`, tail `(x2, y2)`, velocity,
remaining lifespan and origin team. -/
structure LaserBeam where
  x : ℝ
  y : ℝ
  x2 : ℝ
  y2 : ℝ
  vx : ℝ
  vy : ℝ
  lifespan : ℝ
  team : ℕ

/-- Result of one `LaserBeam.update` tick: the moved beam, whether the
beam was removed from the registry, the updated damageable list, and the
explosion effects spawned this tick. -/
structure BeamTick where
  beam : LaserBeam
  removed : Bool
  objsWithHP : List Damageable
  explosions : List (ℝ × ℝ)

open Classical in
/-- One `LaserBeam.update(delta)` tick: advance head and tail, decrement
the lifespan, remove the beam when the lifespan dropped below zero, and
otherwise run the collision loop against `objsWithHP`; on a hit the beam
is removed and one explosion is spawned at the head point. -/
noncomputable def LaserBeam.update (b : LaserBeam) (delta : ℝ)
    (objs : List Damageable) : BeamTick :=
  let b2 : LaserBeam :=
    { b with
      x := b.x + b.vx * delta, y := b.y + b.vy * delta,
      x2 := b.x2 + b.vx * delta, y2 := b.y2 + b.vy * delta,
      lifespan := b.lifespan - delta }
  if b2.lifespan < 0 then ⟨b2, true, objs, []⟩
  else
    let scan := laserHitScan b2.team b2.x b2.y objs
    ⟨b2, scan.2, scan.1, if scan.2 then [(b2.x, b2.y)] else []⟩

/-! ## Targeting and pursuit AI -/

/-- The desired aim angle `atan2(ty - sy, tx - sx)` of the trackers,
expressed through the complex argument. -/
noncomputable def aimAngle (sx sy tx ty : ℝ) : ℝ :=
  Complex.arg ⟨tx - sx, ty - sy⟩

/-- The shared angular tracking step of `SmallEnemyShip.update` and
`StoryController.update`: given the aim angle `target`, compute
`angleDiff = target - theta`; shift `theta` by `-2*pi` when
`angleDiff > pi` and by `+2*pi` when `angleDiff < -pi`; then, reusing
the unshifted `angleDiff`, move the heading by `turnSpeed * delta`
toward the target when `|angleDiff| > turnSpeed * delta`, and otherwise
leave the heading unchanged. -/
noncomputable def trackStep (theta target turnSpeed delta : ℝ) : ℝ :=
  let angleDiff := target - theta
  let theta1 :=
    if angleDiff > Real.pi then theta - Real.pi * 2
    else if angleDiff < -Real.pi then theta + Real.pi * 2
    else theta
  if |angleDiff| > turnSpeed * delta then
    if angleDiff > 0 then theta1 + turnSpeed * delta
    else theta1 - turnSpeed * delta
  else theta1

/-! ## Shields -/

/-- Initial shield health from `Shields.__init__`: `hp = maxHP = 100`. -/
def Shields.initHp : ℝ := 100

/-- Initial shield max health from `Shields.__init__`. -/
def Shields.initMaxHp : ℝ := 100

/-- Shield regeneration rate from `Shields.__init__`: `hpRegen = 7`. -/
def Shields.hpRegen : ℝ := 7

/-- The health part of `Shields.update`: regenerate `hpRegen * delta`
when `hp < maxHP`, with no upper clamp. -/
noncomputable def Shields.updateHp (hp maxHP regen delta : ℝ) : ℝ :=
  if hp < maxHP then hp + regen * delta else hp

/-! ## Turret / TurretStation pairing -/

/-- Registry entries relevant to the turret pairing scan: turrets (with
their optional owning station, by registry index), stations (with their
optional controlled turret, by registry index), and anything else. -/
inductive Obj where
  | turret (station : Option ℕ)
  | station (controls : Option ℕ)
  | other
deriving DecidableEq

/-- The scan of `TurretStation.__init__`: index of the first registry
entry that is a `Turret` with `station == None`. -/
def findUnclaimedTurret : List Obj → Option ℕ
  | [] => none
  | o :: rest =>
    if o = Obj.turret none then some 0
    else (findUnclaimedTurret rest).map (fun i => i + 1)

/-- Constructing a `Turret`: append it to the registry with
`station = None`; the constructor performs no scan. -/
def mkTurret (objs : List Obj) : List Obj :=
  objs ++ [Obj.turret none]

/-- Constructing a `TurretStation`: append it to the registry, scan for
the first unclaimed `Turret`, and when one is found set its `station`
to the new station and the station's `controls` to that turret. -/
def mkStation (objs : List Obj) : List Obj :=
  match findUnclaimedTurret objs with
  | some i => (objs.set i (Obj.turret (some objs.length))) ++ [Obj.station (some i)]
  | none => objs ++ [Obj.station none]

/-! ## Camera / viewport mapper (`renderer.py`) -/

/-- World-to-screen mapping `Renderer.X`:
`hw + (x - camX) / camHt`. -/
noncomputable def Renderer.X (hw camX camHt x : ℝ) : ℝ :=
  hw + (x - camX) / camHt

/-- World-to-screen mapping `Renderer.Y`. -/
noncomputable def Renderer.Y (hh camY camHt y : ℝ) : ℝ :=
  hh + (y - camY) / camHt

/-- Screen-to-world mapping `Renderer.RevX`:
`(x - hw) * camHt + camX`. -/
def Renderer.RevX (hw camX camHt x : ℝ) : ℝ :=
  (x - hw) * camHt + camX

/-- Screen-to-world mapping `Renderer.RevY`. -/
def Renderer.RevY (hh camY camHt y : ℝ) : ℝ :=
  (y - hh) * camHt + camY

/-- Maximum camera height a controlled `Bird` imposes
(`Bird.__init__`). -/
def Bird.maxCamHt : ℝ := 0.04

/-- Maximum camera height a controlled `AllianceShip` imposes
(`AllianceShip.__init__`). -/
def AllianceShip.maxCamHt : ℝ := 1.0

/-- Maximum camera height a controlled `TurretStation` imposes
(`TurretStation.__init__`). -/
def TurretStation.maxCamHt : ℝ := 1.5

/-- The zoom-target part of `Renderer.update`: multiply `camGotoHt` by
`1.2` on scroll-out and by `0.8` on scroll-in, clamp it to the
controlled entity's `maxCamHt` when one is present, then raise it to
the hard floor `0.005`. -/
noncomputable def rendererUpdateGoto (camGotoHt scroll : ℝ) (meMax : Option ℝ) : ℝ :=
  let g1 :=
    if scroll < 0 then camGotoHt * 1.2
    else if scroll > 0 then camGotoHt * 0.8
    else camGotoHt
  let g2 :=
    match meMax with
    | some m => if g1 > m then m else g1
    | none => g1
  if g2 < 0.005 then 0.005 else g2

/-- One camera update of `Renderer.update`: `camHt` first interpolates
halfway toward the current `camGotoHt`, and only afterwards is the
scroll input applied to `camGotoHt`. Returns the new
`(camHt, camGotoHt)` pair. -/
noncomputable def rendererUpdate (camHt camGotoHt scroll : ℝ) (meMax : Option ℝ) : ℝ × ℝ :=
  (camHt + (camGotoHt - camHt) * 0.5, rendererUpdateGoto camGotoHt scroll meMax)

/-! ## Concrete instances used by witnesses -/

/-- A concrete alliance-team damageable entity with a circular hit
region, as built by `AllianceShip.__init__`. -/
def allyScout : Damageable :=
  ⟨0, 0, TEAM_ALLIANCE, 200, HitShape.circle 3⟩

/-- A concrete enemy-team damageable entity with a circular hit region,
as built by `SmallEnemyShip.__init__`. -/
def enemyScout : Damageable :=
  ⟨0, 0, TEAM_ENEMY, 10, HitShape.circle 3⟩

/-- A concrete alliance laser beam at the origin with a fresh lifespan. -/
def testBeam : LaserBeam :=
  ⟨0, 0, -2, 0, 0, 0, 5, TEAM_ALLIANCE⟩

/-! ## Theorems -/

/-- Entries of `objsWithHP` sharing the beam's team pass through the
collision loop unchanged: the short-circuit `obj.team != self.team`
fails on them, so they are never tested for overlap. -/
theorem laserHitScan_same_team (team : ℕ) (px py : ℝ) :
    ∀ (l : List Damageable) (i : ℕ) (e : Damageable),
      l[i]? = some e → e.team = team →
      (laserHitScan team px py l).1[i]? = some e := by
  intro l
  induction l with
  | nil => intro i e h _; simp at h
  | cons a rest ih =>
    intro i e h hteam
    simp only [laserHitScan]
    split_ifs with hc
    · cases i with
      | zero =>
        simp only [List.getElem?_cons_zero, Option.some.injEq] at h
        subst h
        exact absurd hteam hc.1
      | succ n =>
        simp only [List.getElem?_cons_succ] at h ⊢
        exact h
    · cases i with
      | zero => simpa using h
      | succ n =>
        simp only [List.getElem?_cons_succ] at h ⊢
        exact ih n e h hteam

/-- The collision loop decrements the first entry of another team whose
hit region contains the beam head, and leaves every other entry as it
was. -/
theorem laserHitScan_first_hit (team : ℕ) (px py : ℝ) :
    ∀ (l1 : List Damageable) (e : Damageable) (l2 : List Damageable),
      (∀ e1 ∈ l1, ¬(e1.team ≠ team ∧ isInside e1 px py)) →
      e.team ≠ team → isInside e px py →
      laserHitScan team px py (l1 ++ e :: l2) =
        (l1 ++ { e with hp := e.hp - 1 } :: l2, true) := by
  intro l1
  induction l1 with
  | nil =>
    intro e l2 _ hteam hin
    simp only [List.nil_append, laserHitScan]
    rw [if_pos ⟨hteam, hin⟩]
  | cons a rest ih =>
    intro e l2 hmiss hteam hin
    simp only [List.cons_append, laserHitScan]
    rw [if_neg (hmiss a (List.mem_cons_self a rest))]
    simp only [List.append_eq]
    rw [ih e l2 (fun e1 h1 => hmiss e1 (List.mem_cons_of_mem a h1)) hteam hin]

/-- C2: a projectile never damages an entity sharing its origin team --
one `LaserBeam.update` tick leaves every same-team entry of
`objsWithHP` exactly as it was (in particular its health is not
reduced). -/
theorem laser_never_damages_same_team (b : LaserBeam) (delta : ℝ)
    (l : List Damageable) (i : ℕ) (e : Damageable)
    (hmem : l[i]? = some e) (hteam : e.team = b.team) :
    (b.update delta l).objsWithHP[i]? = some e := by
  simp only [LaserBeam.update]
  by_cases hlife : b.lifespan - delta < 0
  · rw [if_pos hlife]
    simpa using hmem
  · rw [if_neg hlife]
    simpa using laserHitScan_same_team b.team _ _ l i e hmem hteam

/-- C2 witness: an alliance beam ticked over a registry holding one
alliance entity leaves that entity untouched. -/
theorem laser_never_damages_same_team_witness :
    (testBeam.update 1 [allyScout]).objsWithHP[0]? = some allyScout :=
  laser_never_damages_same_team testBeam 1 [allyScout] 0 allyScout rfl rfl

/-- C3: on a live tick (lifespan still nonnegative after the decrement),
if some opposing-team entity's hit region contains the advanced beam
head, the first such entry in registry order loses exactly 1 HP, the
beam is removed, exactly one explosion spawns at the impact point, and
every other entry -- including all later overlapping ones -- is left
unchanged. -/
theorem laser_first_hit_resolution (b : LaserBeam) (delta : ℝ)
    (l1 : List Damageable) (e : Damageable) (l2 : List Damageable)
    (hlive : ¬(b.lifespan - delta < 0))
    (hmiss : ∀ e1 ∈ l1,
      ¬(e1.team ≠ b.team ∧ isInside e1 (b.x + b.vx * delta) (b.y + b.vy * delta)))
    (hteam : e.team ≠ b.team)
    (hin : isInside e (b.x + b.vx * delta) (b.y + b.vy * delta)) :
    (b.update delta (l1 ++ e :: l2)).objsWithHP =
      l1 ++ { e with hp := e.hp - 1 } :: l2 ∧
    (b.update delta (l1 ++ e :: l2)).removed = true ∧
    (b.update delta (l1 ++ e :: l2)).explosions =
      [(b.x + b.vx * delta, b.y + b.vy * delta)] := by
  simp only [LaserBeam.update]
  rw [if_neg hlive]
  rw [laserHitScan_first_hit b.team _ _ l1 e l2 hmiss hteam hin]
  simp

/-- C3 witness: an alliance beam over a registry holding one overlapping
enemy entity hits it for 1 HP, is removed, and spawns one explosion. -/
theorem laser_first_hit_resolution_witness :
    (testBeam.update 1 [enemyScout]).objsWithHP =
      [{ enemyScout with hp := enemyScout.hp - 1 }] ∧
    (testBeam.update 1 [enemyScout]).removed = true ∧
    (testBeam.update 1 [enemyScout]).explosions =
      [(testBeam.x + testBeam.vx * 1, testBeam.y + testBeam.vy * 1)] :=
  laser_first_hit_resolution testBeam 1 [] enemyScout []
    (by norm_num [testBeam]) (by simp) (by decide)
    (by norm_num [isInside, enemyScout, testBeam])

/-- C4 counterexample: the small enemy craft does not use the
reverse-thrust convention. At heading 0 and speed 20 over one second it
moves to `x = 20`, while the claimed velocity `-cos(theta)*speed` would
move it to `x = -20`. -/
theorem small_enemy_forward_thrust_counterexample :
    SmallEnemyShip.move 0 0 0 20 1 = (20, 0) ∧
    (0:ℝ) + -Real.cos 0 * 20 * 1 = -20 ∧
    ((20:ℝ), (0:ℝ)) ≠ ((-20:ℝ), (0:ℝ)) := by
  refine ⟨?_, by norm_num, by norm_num [Prod.ext_iff]⟩
  norm_num [SmallEnemyShip.move, Prod.ext_iff]

/-- C4 amended: `AllianceShip` moves with the reverse-thrust velocity
`(-cos(theta)*speed, -sin(theta)*speed)`, while `SmallEnemyShip` moves
along its positive heading axis; the two agree only after negating the
speed. -/
theorem vehicle_velocity_conventions (x y theta speed delta : ℝ) :
    AllianceShip.vel theta speed =
      (-Real.cos theta * speed, -Real.sin theta * speed) ∧
    AllianceShip.move x y theta speed delta =
      (x - Real.cos theta * speed * delta, y - Real.sin theta * speed * delta) ∧
    SmallEnemyShip.move x y theta speed delta =
      (x + Real.cos theta * speed * delta, y + Real.sin theta * speed * delta) ∧
    AllianceShip.move x y theta speed delta =
      SmallEnemyShip.move x y theta (-speed) delta := by
  refine ⟨rfl, ?_, rfl, ?_⟩ <;>
    · simp only [AllianceShip.move, AllianceShip.vel, SmallEnemyShip.move,
        Prod.mk.injEq]
      constructor <;> ring

/-- Helper: when the raw difference is outside the wrap window and above
it, and larger than the turn step, the step subtracts a full turn from
the heading and then turns by `turnSpeed * delta`. -/
theorem trackStep_wrap_pos (theta target turnSpeed delta : ℝ)
    (h1 : target - theta > Real.pi)
    (h3 : |target - theta| > turnSpeed * delta) :
    trackStep theta target turnSpeed delta =
      theta - Real.pi * 2 + turnSpeed * delta := by
  simp only [trackStep]
  rw [if_pos h3, if_pos (by linarith [Real.pi_pos] : target - theta > 0), if_pos h1]

/-- Helper: when the raw difference lies within `[-pi, pi]` and within
the turn step, the heading is left unchanged. -/
theorem trackStep_hold (theta target turnSpeed delta : ℝ)
    (hw1 : ¬(target - theta > Real.pi)) (hw2 : ¬(target - theta < -Real.pi))
    (h3 : ¬(|target - theta| > turnSpeed * delta)) :
    trackStep theta target turnSpeed delta = theta := by
  simp only [trackStep]
  rw [if_neg h3, if_neg hw1, if_neg hw2]

/-- C5 counterexample: with the target dead ahead at aim angle 0 and the
heading at 0.1 (within the turn step of 0.75), the step leaves the
heading at 0.1 instead of snapping it to the target angle; and with aim
angle pi and heading -0.1, the wrap branch fires, the heading jumps to
`-0.1 - 2*pi + 0.75`, and its distance to the target angle grows even
though `turnRate * dt < pi` -- both the snap clause and the
no-overshoot clause of the claim fail. -/
theorem tracking_step_counterexample :
    aimAngle 0 0 1 0 = 0 ∧
    trackStep (1/10) (aimAngle 0 0 1 0) (3/4) 1 = 1/10 ∧
    (1/10:ℝ) ≠ aimAngle 0 0 1 0 ∧
    aimAngle 0 0 (-1) 0 = Real.pi ∧
    trackStep (-(1/10)) (aimAngle 0 0 (-1) 0) (3/4) 1 =
      -(1/10) - Real.pi * 2 + 3/4 * 1 ∧
    (3/4:ℝ) * 1 < Real.pi ∧
    |(-(1/10) - Real.pi * 2 + 3/4 * 1) - Real.pi| > |(-(1/10)) - Real.pi| := by
  have ha0 : aimAngle 0 0 1 0 = 0 := by
    have h1 : ((⟨1 - 0, 0 - 0⟩ : ℂ)) = 1 := Complex.ext (by norm_num) (by norm_num)
    rw [aimAngle, h1, Complex.arg_one]
  have hapi : aimAngle 0 0 (-1) 0 = Real.pi := by
    have h1 : ((⟨-1 - 0, 0 - 0⟩ : ℂ)) = -1 := Complex.ext (by norm_num) (by norm_num)
    rw [aimAngle, h1, Complex.arg_neg_one]
  refine ⟨ha0, ?_, ?_, hapi, ?_, ?_, ?_⟩
  · rw [ha0]
    refine trackStep_hold _ _ _ _ ?_ ?_ ?_
    · rw [not_lt]
      linarith [Real.pi_pos]
    · rw [not_lt]
      linarith [Real.pi_gt_three]
    · rw [not_lt, abs_le]
      constructor <;> norm_num
  · rw [ha0]
    norm_num
  · rw [hapi]
    refine trackStep_wrap_pos _ _ _ _ ?_ ?_
    · linarith [Real.pi_pos]
    · rw [abs_of_pos (by linarith [Real.pi_pos])]
      linarith [Real.pi_gt_three]
  · linarith [Real.pi_gt_three]
  · rw [abs_of_nonpos (by linarith [Real.pi_gt_three]),
      abs_of_nonpos (by linarith [Real.pi_pos])]
    linarith [Real.pi_gt_three]

/-- C5 amended: when the raw angular difference `target - theta` already
lies in `[-pi, pi]` (so neither shift branch fires) and the turn step is
nonnegative, the step moves the heading by exactly `turnSpeed * delta`
toward the target when the difference exceeds the step, leaves the
heading unchanged otherwise (it never snaps to the target angle), and
never increases the distance to the target angle. -/
theorem tracking_no_overshoot_within_pi (theta target turnSpeed delta : ℝ)
    (h1 : -Real.pi ≤ target - theta) (h2 : target - theta ≤ Real.pi)
    (h3 : 0 ≤ turnSpeed * delta) :
    (¬(|target - theta| > turnSpeed * delta) →
      trackStep theta target turnSpeed delta = theta) ∧
    (|target - theta| > turnSpeed * delta → 0 < target - theta →
      trackStep theta target turnSpeed delta = theta + turnSpeed * delta) ∧
    (|target - theta| > turnSpeed * delta → target - theta ≤ 0 →
      trackStep theta target turnSpeed delta = theta - turnSpeed * delta) ∧
    |trackStep theta target turnSpeed delta - target| ≤ |theta - target| := by
  have hw1 : ¬(target - theta > Real.pi) := not_lt.mpr h2
  have hw2 : ¬(target - theta < -Real.pi) := not_lt.mpr h1
  have hb : |target - theta| > turnSpeed * delta → 0 < target - theta →
      trackStep theta target turnSpeed delta = theta + turnSpeed * delta := by
    intro h hpos
    simp only [trackStep]
    rw [if_pos h, if_pos hpos, if_neg hw1, if_neg hw2]
  have hc : |target - theta| > turnSpeed * delta → target - theta ≤ 0 →
      trackStep theta target turnSpeed delta = theta - turnSpeed * delta := by
    intro h hneg
    simp only [trackStep]
    rw [if_pos h, if_neg (not_lt.mpr hneg), if_neg hw1, if_neg hw2]
  refine ⟨fun h => trackStep_hold _ _ _ _ hw1 hw2 h, hb, hc, ?_⟩
  by_cases h : |target - theta| > turnSpeed * delta
  · by_cases hpos : 0 < target - theta
    · rw [hb h hpos]
      rw [abs_of_pos hpos] at h
      rw [abs_of_nonpos (by linarith), abs_of_nonpos (by linarith)]
      linarith
    · have hneg : target - theta ≤ 0 := not_lt.mp hpos
      rw [hc h hneg]
      rw [abs_of_nonpos hneg] at h
      rw [abs_of_nonneg (by linarith), abs_of_nonneg (by linarith)]
      linarith
  · rw [trackStep_hold _ _ _ _ hw1 hw2 h]

/-- C5 amended witness: no overshoot at a concrete in-window input. -/
theorem tracking_no_overshoot_within_pi_witness :
    |trackStep 0 (1/2) (3/4) 1 - 1/2| ≤ |(0:ℝ) - 1/2| :=
  (tracking_no_overshoot_within_pi 0 (1/2) (3/4) 1
    (by linarith [Real.pi_pos]) (by linarith [Real.pi_gt_three])
    (by norm_num)).2.2.2

/-- Helper: appending a fresh unclaimed turret to a registry holding no
unclaimed turret makes it the first unclaimed one. -/
theorem findUnclaimedTurret_append (objs : List Obj)
    (h : findUnclaimedTurret objs = none) :
    findUnclaimedTurret (objs ++ [Obj.turret none]) = some objs.length := by
  induction objs with
  | nil => simp [findUnclaimedTurret]
  | cons o rest ih =>
    simp only [findUnclaimedTurret] at h
    by_cases ho : o = Obj.turret none
    · rw [if_pos ho] at h
      exact absurd h (by simp)
    · rw [if_neg ho] at h
      have hr : findUnclaimedTurret rest = none := by
        cases hfr : findUnclaimedTurret rest with
        | none => rfl
        | some k =>
          rw [hfr] at h
          simp at h
      simp only [List.cons_append, findUnclaimedTurret, if_neg ho, List.append_eq,
        List.length_cons]
      rw [ih hr]
      rfl

/-- Helper: setting the index right after a list replaces the appended
singleton. -/
theorem set_append_length (objs : List Obj) (a v : Obj) :
    (objs ++ [a]).set objs.length v = objs ++ [v] := by
  induction objs with
  | nil => rfl
  | cons o rest ih =>
    simp only [List.cons_append, List.length_cons, List.set_cons_succ, ih]

/-- C7 counterexample: constructing a `TurretStation` first and a
`Turret` second leaves both references unset -- the station's
`controls` is `None` and the turret's `station` is `None`, because only
the station's constructor scans the registry. -/
theorem station_first_unlinked_counterexample :
    mkTurret (mkStation []) = [Obj.station none, Obj.turret none] ∧
    Obj.station none ≠ Obj.station (some 1) ∧
    Obj.turret none ≠ Obj.turret (some 0) := by
  decide

/-- C7 amended: starting from any registry with no unclaimed turret,
constructing a `Turret` and then a `TurretStation` yields the mutual
back-reference (the station's `controls` names the turret and the
turret's `station` names the station), while the opposite order leaves
both references `None`. -/
theorem turret_station_link_order (objs : List Obj)
    (h : findUnclaimedTurret objs = none) :
    mkStation (mkTurret objs) =
      objs ++ [Obj.turret (some (objs.length + 1)), Obj.station (some objs.length)] ∧
    mkTurret (mkStation objs) = objs ++ [Obj.station none, Obj.turret none] := by
  constructor
  · rw [mkTurret, mkStation, findUnclaimedTurret_append objs h]
    show (objs ++ [Obj.turret none]).set objs.length
        (Obj.turret (some (objs ++ [Obj.turret none]).length)) ++
          [Obj.station (some objs.length)] =
      objs ++ [Obj.turret (some (objs.length + 1)), Obj.station (some objs.length)]
    rw [set_append_length]
    simp [List.length_append]
  · rw [mkStation, h, mkTurret]
    simp

/-- C7 amended witness: both construction orders on the empty registry. -/
theorem turret_station_link_order_witness :
    mkStation (mkTurret []) = [Obj.turret (some 1), Obj.station (some 0)] ∧
    mkTurret (mkStation []) = [Obj.station none, Obj.turret none] := by
  simpa using turret_station_link_order [] rfl

/-- C6 counterexample: shield regeneration has no clamp. Starting from
99 HP (below the maximum 100) a one-second tick regenerates to 106 HP,
violating `health ≤ maxHealth`. -/
theorem shields_regen_overshoot_counterexample :
    (99:ℝ) < 100 ∧ (0:ℝ) < 1 ∧
    Shields.updateHp 99 100 Shields.hpRegen 1 = 106 ∧
    ¬Shields.updateHp 99 100 Shields.hpRegen 1 ≤ 100 := by
  have h : Shields.updateHp 99 100 Shields.hpRegen 1 = 106 := by
    rw [Shields.updateHp, if_pos (by norm_num : (99:ℝ) < 100)]
    norm_num [Shields.hpRegen]
  exact ⟨by norm_num, by norm_num, h, by rw [h]; norm_num⟩

/-- C6 amended: shields are constructed with `hp = maxHP`; taking damage
preserves `hp ≤ maxHP`; but the regeneration tick only tests
`hp < maxHP` before adding `hpRegen * delta`, so after an update the
health is bounded only by `maxHP + hpRegen * delta` and can exceed
`maxHP`. -/
theorem shields_hp_bounds (hp maxHP regen delta : ℝ)
    (hhp : hp ≤ maxHP) (hreg : 0 ≤ regen * delta) :
    Shields.initHp ≤ Shields.initMaxHp ∧
    hp - 1 ≤ maxHP ∧
    Shields.updateHp hp maxHP regen delta ≤ maxHP + regen * delta := by
  refine ⟨by norm_num [Shields.initHp, Shields.initMaxHp], by linarith, ?_⟩
  rw [Shields.updateHp]
  split_ifs with h
  · linarith
  · linarith

/-- C6 amended witness: the bound at the counterexample input. -/
theorem shields_hp_bounds_witness :
    Shields.initHp ≤ Shields.initMaxHp ∧
    (99:ℝ) - 1 ≤ 100 ∧
    Shields.updateHp 99 100 7 1 ≤ 100 + 7 * 1 :=
  shields_hp_bounds 99 100 7 1 (by norm_num) (by norm_num)

/-- C9 counterexample: starting from `camHt = 1, camGotoHt = 1` with a
pending scroll-out, one `Renderer.update` multiplies the target by 1.2
but leaves `camHt` at 1, because the interpolation runs before the
scroll handling; the claimed halfway value is 1.1. -/
theorem camera_zoom_first_frame_counterexample :
    (rendererUpdate 1 1 (-1) none).2 = 1.2 ∧ (1.2:ℝ) > 1 ∧
    (rendererUpdate 1 1 (-1) none).1 = 1 ∧
    (1:ℝ) + ((rendererUpdate 1 1 (-1) none).2 - 1) * 0.5 = 1.1 ∧
    (rendererUpdate 1 1 (-1) none).1 ≠
      1 + ((rendererUpdate 1 1 (-1) none).2 - 1) * 0.5 := by
  have hg : (rendererUpdate 1 1 (-1) none).2 = 1.2 := by
    simp only [rendererUpdate, rendererUpdateGoto]
    norm_num
  have hc : (rendererUpdate 1 1 (-1) none).1 = 1 := by
    simp only [rendererUpdate]
    norm_num
  exact ⟨hg, by norm_num, hc, by rw [hg]; norm_num, by rw [hg, hc]; norm_num⟩

/-- C9 amended: the frame that consumes the scroll-out leaves `camHt`
unchanged and sets the target to 1.2; the following frame moves `camHt`
exactly halfway toward that new target, to 1.1. -/
theorem camera_zoom_two_frames :
    rendererUpdate 1 1 (-1) none = (1, 1.2) ∧
    rendererUpdate 1 1.2 0 none = (1.1, 1.2) ∧
    (1.1:ℝ) = 1 + (1.2 - 1) * 0.5 := by
  refine ⟨?_, ?_, by norm_num⟩ <;>
    · simp only [rendererUpdate, rendererUpdateGoto, Prod.mk.injEq]
      norm_num

/-- C10: after a camera update the zoom target is at least the hard
floor 0.005, and with a controlled entity present (whose `maxCamHt` is
one of the three values occurring in the game) it is also at most that
entity's `maxCamHt`. -/
theorem cam_goto_height_bounds (goto scroll m : ℝ)
    (hm : m = Bird.maxCamHt ∨ m = AllianceShip.maxCamHt ∨ m = TurretStation.maxCamHt) :
    0.005 ≤ rendererUpdateGoto goto scroll (some m) ∧
    rendererUpdateGoto goto scroll (some m) ≤ m ∧
    0.005 ≤ rendererUpdateGoto goto scroll none := by
  have hm5 : (0.005:ℝ) ≤ m := by
    rcases hm with h | h | h <;> rw [h] <;>
      norm_num [Bird.maxCamHt, AllianceShip.maxCamHt, TurretStation.maxCamHt]
  refine ⟨?_, ?_, ?_⟩ <;>
    · simp only [rendererUpdateGoto]
      split_ifs <;> linarith

/-- C10 witness: the bounds with a controlled `Bird` present. -/
theorem cam_goto_height_bounds_witness :
    (0.005:ℝ) ≤ rendererUpdateGoto 1 0 (some Bird.maxCamHt) ∧
    rendererUpdateGoto 1 0 (some Bird.maxCamHt) ≤ Bird.maxCamHt ∧
    (0.005:ℝ) ≤ rendererUpdateGoto 1 0 none :=
  cam_goto_height_bounds 1 0 Bird.maxCamHt (Or.inl rfl)

/-- C1: for every tile offset `(ox, oy)`, parent position `(px, py)` and
heading `theta`, `Tile.transform` at the local origin returns
`(px + ox*cos - oy*sin, py + oy*cos + ox*sin)`; at `theta = 0` this is
the accumulated position of `Tile.__init__`; and an offset `(ox, 0)`
maps to `(px + ox*cos, py + ox*sin)`. -/
theorem tile_transform_rotation (px py theta ox oy : ℝ) :
    Tile.transform (shipPose px py theta) ox oy 0 0 =
      (px + ox * Real.cos theta - oy * Real.sin theta,
       py + oy * Real.cos theta + ox * Real.sin theta) ∧
    Tile.transform (shipPose px py 0) ox oy 0 0 = Tile.initAccum px py ox oy ∧
    Tile.transform (shipPose px py theta) ox 0 0 0 =
      (px + ox * Real.cos theta, py + ox * Real.sin theta) := by
  refine ⟨?_, ?_, ?_⟩
  · simp only [Tile.transform, shipPose, Prod.mk.injEq]
    constructor <;> ring
  · simp [Tile.transform, shipPose, Tile.initAccum]
  · simp only [Tile.transform, shipPose, Prod.mk.injEq]
    constructor <;> ring

/-- C8: with a nonzero camera height, the inverse screen-to-world
mapping undoes the forward world-to-screen mapping exactly, in both
coordinates. -/
theorem screen_world_roundtrip (hw hh camX camY camHt x y : ℝ) (h : camHt ≠ 0) :
    Renderer.RevX hw camX camHt (Renderer.X hw camX camHt x) = x ∧
    Renderer.RevY hh camY camHt (Renderer.Y hh camY camHt y) = y := by
  constructor <;>
    · simp only [Renderer.X, Renderer.Y, Renderer.RevX, Renderer.RevY]
      field_simp
      ring

/-- C8 witness: the round trip at a concrete camera state and point. -/
theorem screen_world_roundtrip_witness :
    Renderer.RevX 300 2 (1/2) (Renderer.X 300 2 (1/2) 7) = 7 ∧
    Renderer.RevY 300 (-3) (1/2) (Renderer.Y 300 (-3) (1/2) 11) = 11 :=
  screen_world_roundtrip 300 300 2 (-3) (1/2) 7 11 (by norm_num)

end BirdsInSpace
